import Mathlib

/-!
Verification development for the road-pavement monitoring store
(`src/main.py`).  Python floats are modelled as rationals, SQL rows as a
Lean structure, the database table as a list of rows, and the module-level
`subscriptions` global as an explicit registry value threaded through the
embedded handlers.  Exceptions are modelled with `Except` / `Option`
values; the catch-all `except Exception` blocks of the endpoints are
embedded explicitly.
-/

namespace RoadStore

/-! ## Datetimes and ISO-8601 parsing

Models `datetime.datetime` values together with `datetime.fromisoformat`
(the parser used by `AgentData.check_timestamp`) and `datetime.isoformat`
(used when building the fan-out payload).  The parser covers the core
`YYYY-MM-DD[<sep>HH[:MM[:SS[.ffffff]]]][Z|+HH:MM|-HH:MM]` forms with full
range checks (month, day-in-month with leap years, hour, minute, second);
a string it cannot parse models a string `fromisoformat` raises on. -/

structure Datetime where
  year : Nat
  month : Nat
  day : Nat
  hour : Nat
  minute : Nat
  second : Nat
  microsecond : Nat
  tzOffsetMinutes : Option Int
deriving DecidableEq, Repr

def isLeapYear (y : Nat) : Bool :=
  (y % 4 == 0 && y % 100 != 0) || y % 400 == 0

def daysInMonth (y m : Nat) : Nat :=
  if m = 2 then (if isLeapYear y then 29 else 28)
  else if m = 4 ∨ m = 6 ∨ m = 9 ∨ m = 11 then 30
  else 31

def digitVal (c : Char) : Option Nat :=
  if c.isDigit then some (c.toNat - 48) else none

def readFixedAux : Nat → Nat → List Char → Option (Nat × List Char)
  | 0, acc, cs => some (acc, cs)
  | _ + 1, _, [] => none
  | n + 1, acc, c :: cs =>
      match digitVal c with
      | some d => readFixedAux n (acc * 10 + d) cs
      | none => none

/-- Read exactly `n` decimal digits. -/
def readFixed (n : Nat) (cs : List Char) : Option (Nat × List Char) :=
  readFixedAux n 0 cs

def expectChar (c : Char) : List Char → Option (List Char)
  | [] => none
  | x :: xs => if x = c then some xs else none

def takeDigits : List Char → List Nat × List Char
  | [] => ([], [])
  | c :: cs =>
      match digitVal c with
      | some d =>
          let (ds, rest) := takeDigits cs
          (d :: ds, rest)
      | none => ([], c :: cs)

/-- First six fractional digits, right-padded with zeros to microseconds. -/
def digitsToMicro (ds : List Nat) : Nat :=
  ((ds ++ [0, 0, 0, 0, 0, 0]).take 6).foldl (fun a d => a * 10 + d) 0

/-- Parse `HH[:MM[:SS[.f+]]]`, returning hour, minute, second, microsecond
and the unconsumed rest. -/
def parseHMS (cs : List Char) : Option (Nat × Nat × Nat × Nat × List Char) := do
  let (h, cs1) ← readFixed 2 cs
  match cs1 with
  | ':' :: cs2 => do
      let (mi, cs3) ← readFixed 2 cs2
      match cs3 with
      | ':' :: cs4 => do
          let (s, cs5) ← readFixed 2 cs4
          match cs5 with
          | '.' :: cs6 =>
              let (ds, rest) := takeDigits cs6
              if ds.isEmpty then none else some (h, mi, s, digitsToMicro ds, rest)
          | _ => some (h, mi, s, 0, cs5)
      | _ => some (h, mi, 0, 0, cs3)
  | _ => some (h, 0, 0, 0, cs1)

/-- Parse an optional trailing UTC offset (`Z`, `+HH:MM` or `-HH:MM`).
Unrecognised input is left unconsumed (the caller then rejects it). -/
def parseOffset (cs : List Char) : Option (Option Int × List Char) :=
  match cs with
  | [] => some (none, [])
  | 'Z' :: rest => some (some 0, rest)
  | '+' :: rest => do
      let (h, cs2) ← readFixed 2 rest
      let cs3 ← expectChar ':' cs2
      let (m, cs4) ← readFixed 2 cs3
      if h ≤ 23 ∧ m ≤ 59 then some (some (Int.ofNat (h * 60 + m)), cs4) else none
  | '-' :: rest => do
      let (h, cs2) ← readFixed 2 rest
      let cs3 ← expectChar ':' cs2
      let (m, cs4) ← readFixed 2 cs3
      if h ≤ 23 ∧ m ≤ 59 then some (some (-(Int.ofNat (h * 60 + m))), cs4) else none
  | other => some (none, other)

/-- Range-check the parsed fields, as the `datetime` constructor does. -/
def mkDatetime (y mo d h mi s micro : Nat) (tz : Option Int) : Option Datetime :=
  if 1 ≤ y ∧ y ≤ 9999 ∧ 1 ≤ mo ∧ mo ≤ 12 ∧ 1 ≤ d ∧ d ≤ daysInMonth y mo
      ∧ h ≤ 23 ∧ mi ≤ 59 ∧ s ≤ 59 ∧ micro ≤ 999999
  then some ⟨y, mo, d, h, mi, s, micro, tz⟩ else none

/-- Model of `datetime.fromisoformat`: `some` on an ISO-8601 string,
`none` where the Python call raises `ValueError`. -/
def fromisoformat (str : String) : Option Datetime := do
  let cs := str.toList
  let (y, cs1) ← readFixed 4 cs
  let cs2 ← expectChar '-' cs1
  let (mo, cs3) ← readFixed 2 cs2
  let cs4 ← expectChar '-' cs3
  let (d, cs5) ← readFixed 2 cs4
  match cs5 with
  | [] => mkDatetime y mo d 0 0 0 0 none
  | _ :: cs6 => do
      let (h, mi, s, micro, cs7) ← parseHMS cs6
      let (tz, cs8) ← parseOffset cs7
      if cs8 = [] then mkDatetime y mo d h mi s micro tz else none

def padNum (width n : Nat) : String :=
  let s := toString n
  String.mk (List.replicate (width - s.length) '0') ++ s

/-- Model of `datetime.isoformat` (used at line 182 of `main.py`). -/
def Datetime.isoformat (d : Datetime) : String :=
  padNum 4 d.year ++ "-" ++ padNum 2 d.month ++ "-" ++ padNum 2 d.day ++ "T"
    ++ padNum 2 d.hour ++ ":" ++ padNum 2 d.minute ++ ":" ++ padNum 2 d.second
    ++ (if d.microsecond = 0 then "" else "." ++ padNum 6 d.microsecond)
    ++ (match d.tzOffsetMinutes with
        | none => ""
        | some off =>
            (if off < 0 then "-" else "+")
              ++ padNum 2 (off.natAbs / 60) ++ ":" ++ padNum 2 (off.natAbs % 60))

/-! ## The datetime grammar pydantic-core actually applies

Because `check_timestamp` is never registered as a validator (see its doc
comment below), the `timestamp: datetime` field is validated by
pydantic-core's lax coercion, implemented by the speedate crate: the
extended-format grammar `YYYY-MM-DD[<T|t|space|_>HH:MM[:SS[.f+]]][Z|z|
+-HH:MM|+-HHMM]` (minute precision required, fraction truncated to
microseconds, a bare date upgraded to midnight), and as a fallback a
numeric string taken as a Unix epoch (milliseconds once its magnitude
reaches 2e10), yielding an aware UTC datetime. -/

/-- The separators speedate accepts between the date and the time. -/
def speedateSep (c : Char) : Bool :=
  c = 'T' || c = 't' || c = ' ' || c = '_'

/-- speedate time parse: `HH:MM[:SS[.f+]]`; unlike `fromisoformat`, the
minutes are mandatory. -/
def parseSpeedateTime (cs : List Char) : Option (Nat × Nat × Nat × Nat × List Char) := do
  let (h, cs1) ← readFixed 2 cs
  let cs2 ← expectChar ':' cs1
  let (mi, cs3) ← readFixed 2 cs2
  match cs3 with
  | ':' :: cs4 => do
      let (s, cs5) ← readFixed 2 cs4
      match cs5 with
      | '.' :: cs6 =>
          let (ds, rest) := takeDigits cs6
          if ds.isEmpty then none else some (h, mi, s, digitsToMicro ds, rest)
      | _ => some (h, mi, s, 0, cs5)
  | _ => some (h, mi, 0, 0, cs3)

def parseSpeedateOffsetTail (signNeg : Bool) (cs : List Char) :
    Option (Option Int × List Char) := do
  let (h, cs1) ← readFixed 2 cs
  let (m, cs2) ← (match cs1 with
    | ':' :: cs0 => readFixed 2 cs0
    | _ => readFixed 2 cs1)
  if h ≤ 23 ∧ m ≤ 59 then
    let v : Int := Int.ofNat (h * 60 + m)
    some (some (if signNeg then -v else v), cs2)
  else none

/-- speedate offset parse: `Z`, `z`, `+-HH:MM` or `+-HHMM`; the minutes
are mandatory.  Unrecognised input is left for the caller to reject. -/
def parseSpeedateOffset (cs : List Char) : Option (Option Int × List Char) :=
  match cs with
  | [] => some (none, [])
  | 'Z' :: rest => some (some 0, rest)
  | 'z' :: rest => some (some 0, rest)
  | '+' :: rest => parseSpeedateOffsetTail false rest
  | '-' :: rest => parseSpeedateOffsetTail true rest
  | other => some (none, other)

/-- Model of the speedate datetime string grammar as configured by
pydantic-core (lax mode, microseconds truncated): `some` where the parse
succeeds, `none` where pydantic falls back to the numeric-epoch path or
rejects. -/
def speedateDatetime (str : String) : Option Datetime := do
  let cs := str.toList
  let (y, cs1) ← readFixed 4 cs
  let cs2 ← expectChar '-' cs1
  let (mo, cs3) ← readFixed 2 cs2
  let cs4 ← expectChar '-' cs3
  let (d, cs5) ← readFixed 2 cs4
  match cs5 with
  | [] => mkDatetime y mo d 0 0 0 0 none
  | sep :: cs6 =>
      if speedateSep sep then do
        let (h, mi, s, micro, cs7) ← parseSpeedateTime cs6
        let (tz, cs8) ← parseSpeedateOffset cs7
        if cs8 = [] then mkDatetime y mo d h mi s micro tz else none
      else none

def digitsToNat (ds : List Nat) : Nat :=
  ds.foldl (fun a d => a * 10 + d) 0

/-- Digits with an optional fractional part, returned as the exact
fraction numerator over `10 ^ fractional digits`. -/
def parseUnsignedNumeric (cs : List Char) : Option (Nat × Nat) :=
  let (ds, rest) := takeDigits cs
  if ds.isEmpty then none
  else match rest with
    | [] => some (digitsToNat ds, 1)
    | '.' :: cs2 =>
        let (fs, rest2) := takeDigits cs2
        if fs.isEmpty ∨ rest2 ≠ [] then none
        else some (digitsToNat ds * 10 ^ fs.length + digitsToNat fs, 10 ^ fs.length)
    | _ => none

/-- A decimal numeric string (optional sign, digits, optional fractional
digits), as accepted by the int/float fallback of the lax datetime
coercion; the value is the exact fraction `numerator / denominator`. -/
def parseNumericString (str : String) : Option (Int × Nat) :=
  match str.toList with
  | '+' :: cs => (parseUnsignedNumeric cs).map (fun p => ((p.1 : Int), p.2))
  | '-' :: cs => (parseUnsignedNumeric cs).map (fun p => (-(p.1 : Int), p.2))
  | cs => (parseUnsignedNumeric cs).map (fun p => ((p.1 : Int), p.2))

/-- Civil date from days since 1970-01-01 (the Hinnant algorithm). -/
def civilFromDays (z0 : Int) : Int × Nat × Nat :=
  let z := z0 + 719468
  let era := z.fdiv 146097
  let doe := (z - era * 146097).toNat
  let yoe := (doe - doe / 1460 + doe / 36524 - doe / 146096) / 365
  let y := (yoe : Int) + era * 400
  let doy := doe - (365 * yoe + yoe / 4 - yoe / 100)
  let mp := (5 * doy + 2) / 153
  let d := doy - (153 * mp + 2) / 5 + 1
  let m := if mp < 10 then mp + 3 else mp - 9
  (if m ≤ 2 then y + 1 else y, m, d)

/-- Model of speedate turning the Unix timestamp `n / d` into a
datetime, as used by pydantic-core: magnitudes from 2e10 are
milliseconds, the result is an aware UTC datetime with the fraction
floored to microseconds, and values outside the supported year range are
rejected. -/
def epochToDatetime (n : Int) (d : Nat) : Option Datetime :=
  let dz : Int := (d : Int)
  let d1 : Int :=
    if 20000000000 * dz ≤ n ∨ n ≤ -(20000000000 * dz) then dz * 1000 else dz
  let s : Int := n.fdiv d1
  let micro : Nat := (((n - s * d1) * 1000000).fdiv d1).toNat
  let days := s.fdiv 86400
  let rem := (s - days * 86400).toNat
  match civilFromDays days with
  | (y, m, dd) =>
      if 1 ≤ y ∧ y ≤ 9999 then
        mkDatetime y.toNat m dd (rem / 3600) (rem % 3600 / 60) (rem % 60) micro (some 0)
      else none

/-! ## JSON values and `json.dumps`

The fan-out path builds a Python dict (`data_to_send`, lines 169-184) and
serializes it with `json.dumps`.  `Json` models such values; `dumps`
models `json.dumps` with its default separators.  Float formatting is
modelled for finitely-representable decimals (all that the code ever
serializes); strings escape the quote and backslash characters. -/

inductive Json where
  | str (s : String)
  | int (i : Int)
  | float (q : ℚ)
  | obj (fields : List (String × Json))

def escapeChar (c : Char) : String :=
  if c = '"' then "\\\"" else if c = '\\' then "\\\\" else String.singleton c

def renderString (s : String) : String :=
  "\"" ++ String.join (s.toList.map escapeChar) ++ "\""

def fracDigitsAux : Nat → ℚ → List Nat
  | 0, _ => []
  | fuel + 1, q =>
      if q = 0 then []
      else
        let q10 := q * 10
        let d := q10.num.toNat / q10.den
        d :: fracDigitsAux fuel (q10 - (d : ℚ))

/-- Decimal rendering of a Python float holding the rational `q`. -/
def renderFloat (q : ℚ) : String :=
  let sign := if q < 0 then "-" else ""
  let a := if q < 0 then -q else q
  let ipart := a.num.toNat / a.den
  let ds := fracDigitsAux 17 (a - (ipart : ℚ))
  sign ++ toString ipart ++ "." ++ (if ds.isEmpty then "0" else String.join (ds.map toString))

mutual

/-- Model of `json.dumps` with the default item and key separators. -/
def dumps : Json → String
  | .str s => renderString s
  | .int i => toString i
  | .float q => renderFloat q
  | .obj fs => "\x7b" ++ dumpsFields fs ++ "\x7d"

def dumpsFields : List (String × Json) → String
  | [] => ""
  | [(k, v)] => renderString k ++ ": " ++ dumps v
  | (k, v) :: rest => renderString k ++ ": " ++ dumps v ++ ", " ++ dumpsFields rest

end

/-! ## Pydantic data model (lines 35-78 of `main.py`)

The request body models.  Numeric fields are taken type-correct (pydantic
rejects a type mismatch before the handler runs); the `timestamp` field of
the inbound `agent_data` is the one field with more than a type check.
The source intends the custom rule `check_timestamp` for it, but the rule
is never registered (wrong decorator order), so the field actually gets
the native lax coercion modelled above. -/

structure AccelerometerData where
  x : ℚ
  y : ℚ
  z : ℚ
deriving DecidableEq, Repr

structure GpsData where
  latitude : ℚ
  longitude : ℚ
deriving DecidableEq, Repr

/-- The raw value supplied for `timestamp`: either already a `datetime`
or a string still to be parsed (`mode` is `before`). -/
inductive TimestampInput where
  | str (s : String)
  | dt (d : Datetime)
deriving DecidableEq, Repr

/-- Validated `AgentData` (lines 46-50). -/
structure AgentData where
  user_id : Int
  accelerometer : AccelerometerData
  gps : GpsData
  timestamp : Datetime
deriving DecidableEq, Repr

def invalidTimestampMsg : String :=
  "Invalid timestamp format. Expected ISO 8601 format (YYYY-MM-DDTHH:MM:SSZ)."

/-- Embedding of `AgentData.check_timestamp` (lines 52-61): a `datetime`
passes through; a string is parsed with `fromisoformat`; on parse failure
a `ValueError` with a fixed message is raised.  This function is DEAD
CODE in the program: at lines 52-53 the decorator `classmethod` is
applied above `field_validator`, so the class attribute is a classmethod
wrapping the validator proxy, and pydantic v2 decorator collection,
which registers only bare proxy attributes, silently skips it.  The
field therefore receives pydantic-core lax datetime coercion instead
(`pydanticDatetimeLax` below); `check_timestamp` is embedded here as the
evidently intended rule, for comparison. -/
def check_timestamp : TimestampInput → Except String Datetime
  | .dt d => .ok d
  | .str v =>
      match fromisoformat v with
      | some d => .ok d
      | none => .error invalidTimestampMsg

/-- The message of the pydantic-core datetime coercion error. -/
def datetimeParseErrorMsg : String := "Input should be a valid datetime or date"

/-- The validation the `timestamp` field actually receives: pydantic v2
lax coercion of a JSON string to `datetime` — the speedate grammar,
otherwise a numeric string as a Unix epoch.  A `datetime` instance
passes through. -/
def pydanticDatetimeLax : TimestampInput → Except String Datetime
  | .dt d => .ok d
  | .str v =>
      match speedateDatetime v with
      | some d => .ok d
      | none =>
          match parseNumericString v with
          | some (n, dd) =>
              match epochToDatetime n dd with
              | some d => .ok d
              | none => .error datetimeParseErrorMsg
          | none => .error datetimeParseErrorMsg

/-- Validated request body (`ProcessedAgentData`, lines 64-66). -/
structure ProcessedAgentData where
  road_state : String
  agent_data : AgentData
deriving DecidableEq, Repr

/-- An untrusted submission: the JSON body of the ingest request with all
fields present and type-correct except that `timestamp` is still raw. -/
structure RawSubmission where
  road_state : String
  user_id : Int
  x : ℚ
  y : ℚ
  z : ℚ
  latitude : ℚ
  longitude : ℚ
  timestamp : TimestampInput
deriving DecidableEq, Repr

/-- A pydantic validation error entry: pydantic v2 wraps the `ValueError`
raised by a validator into an error item carrying the message and the
offending input value, which FastAPI returns in the 422 response body. -/
structure ValidationError where
  msg : String
  input : TimestampInput
deriving DecidableEq, Repr

/-- Model of pydantic building a `ProcessedAgentData` from the request
body: the only validation beyond the field types is the coercion of
`agent_data.timestamp` — and, because `check_timestamp` is never
registered (see its doc comment), that coercion is the native lax
datetime coercion `pydanticDatetimeLax`, not `check_timestamp`. -/
def validateSubmission (r : RawSubmission) : Except ValidationError ProcessedAgentData :=
  match pydanticDatetimeLax r.timestamp with
  | .error m => .error ⟨m, r.timestamp⟩
  | .ok ts =>
      .ok ⟨r.road_state, ⟨r.user_id, ⟨r.x, r.y, r.z⟩, ⟨r.latitude, r.longitude⟩, ts⟩⟩

/-! ## Stored rows and the `processed_agent_data` table -/

/-- A row of the `processed_agent_data` table (also the response model
`ProcessedAgentDataInDB`, lines 69-78). -/
structure ProcessedAgentDataInDB where
  id : Int
  road_state : String
  user_id : Int
  x : ℚ
  y : ℚ
  z : ℚ
  latitude : ℚ
  longitude : ℚ
  timestamp : Datetime
deriving DecidableEq, Repr

/-- Model of `select(...).where(id == i)` followed by `.first()`. -/
def selectById (db : List ProcessedAgentDataInDB) (i : Int) : Option ProcessedAgentDataInDB :=
  db.find? (fun r => r.id == i)

/-- The storage-assigned id of the next insert. -/
def nextId (db : List ProcessedAgentDataInDB) : Int :=
  1 + db.foldl (fun m r => max m r.id) 0

/-- The row written for a validated submission (insert values at lines
156-167; update values at lines 209-218; response row at lines 223-233). -/
def rowFromSubmission (i : Int) (data : ProcessedAgentData) : ProcessedAgentDataInDB :=
  ⟨i, data.road_state, data.agent_data.user_id,
    data.agent_data.accelerometer.x, data.agent_data.accelerometer.y,
    data.agent_data.accelerometer.z, data.agent_data.gps.latitude,
    data.agent_data.gps.longitude, data.agent_data.timestamp⟩

/-! ## Exceptions and HTTP responses -/

/-- The Python exceptions the embedded code can raise.  `httpException`
is `fastapi.HTTPException`, which subclasses `Exception` and is therefore
caught by the `except Exception` blocks. -/
inductive PyExc where
  | httpException (status : Nat) (detail : String)
  | keyError (msg : String)
  | typeError (msg : String)
  | sendError (msg : String)
deriving DecidableEq, Repr

/-- Model of `str(e)` on the exceptions above (starlette renders an
`HTTPException` as `status: detail`). -/
def pyStr : PyExc → String
  | .httpException c d => toString c ++ ": " ++ d
  | .keyError m => m
  | .typeError m => m
  | .sendError m => m

/-- An HTTP response: either the handler result or an error status with a
detail string. -/
inductive Response (α : Type) where
  | success (a : α)
  | error (status : Nat) (detail : String)
deriving DecidableEq, Repr

/-- Model of the catch-all endpoint body: `try: BODY except Exception as
e: raise HTTPException(status_code=500, detail=str(e))`.  Every exception
raised in the body, including a 404 `HTTPException`, reaches the caller
as a 500. -/
def runGuarded {α : Type} (body : Except PyExc α) : Response α :=
  match body with
  | .ok a => .success a
  | .error e => .error 500 (pyStr e)

/-! ## Subscription registry (lines 82-104)

Line 82 initialises the module-level global as a Python `set`, while the
websocket handler and the fan-out indexer treat it as a dict mapping
`user_id` to a set of connections.  `Registry` carries both shapes so the
literal initial state and the dict-shaped state the code indexes can both
be embedded.  Connections are identified by numbers. -/

abbrev Conn := Nat

inductive Registry where
  | pyset (elems : List Conn)
  | pydict (entries : List (Int × List Conn))
deriving DecidableEq, Repr

/-- Line 82: `subscriptions: Set[WebSocket] = set()`. -/
def subscriptions : Registry := .pyset []

def dictLookup (entries : List (Int × List Conn)) (k : Int) : Option (List Conn) :=
  (entries.find? (fun p => p.1 == k)).map Prod.snd

def dictSet (entries : List (Int × List Conn)) (k : Int) (v : List Conn) :
    List (Int × List Conn) :=
  if (entries.find? (fun p => p.1 == k)).isSome
  then entries.map (fun p => if p.1 == k then (p.1, v) else p)
  else entries ++ [(k, v)]

/-- Lines 88-91 of `websocket_endpoint`: register the connection.  On the
literal set-typed global, `subscriptions[user_id] = set()` (line 90) and
`subscriptions[user_id].add(websocket)` (line 91) are item access on a
`set` and both raise `TypeError` before the connection is added; on a
dict-shaped registry the connection is added under its key. -/
def websocket_subscribe (user_id : Int) (ws : Conn) (reg : Registry) :
    Registry × Option PyExc :=
  match reg with
  | .pyset _ => (reg, some (.typeError "set object does not support item assignment"))
  | .pydict d =>
      let conns := (dictLookup d user_id).getD []
      (.pydict (dictSet d user_id (if ws ∈ conns then conns else conns ++ [ws])), none)

/-- Line 96 of `websocket_endpoint`, run on `WebSocketDisconnect`:
`subscriptions[user_id].remove(websocket)`.  On the literal set-typed
global the indexing raises `TypeError`; on a dict-shaped registry a
missing key raises `KeyError`, and `set.remove` raises `KeyError` when
the connection is not a member. -/
def websocket_unsubscribe (user_id : Int) (ws : Conn) (reg : Registry) :
    Registry × Option PyExc :=
  match reg with
  | .pyset _ => (reg, some (.typeError "set object is not subscriptable"))
  | .pydict d =>
      match dictLookup d user_id with
      | none => (reg, some (.keyError "user_id missing from subscriptions"))
      | some conns =>
          if ws ∈ conns
          then (.pydict (dictSet d user_id (conns.erase ws)), none)
          else (reg, some (.keyError "connection not in set"))

/-! ## Fan-out (lines 101-104) -/

/-- The text frame transmitted by `websocket.send_json(json.dumps(data))`:
`send_json` itself serializes its argument, so the frame is `json.dumps`
applied to the string `json.dumps(data)`. -/
def wirePayload (data : Json) : String :=
  dumps (Json.str (dumps data))

/-- The delivery loop of `send_data_to_subscribers`.  `sendOk c = false`
models `await websocket.send_json(...)` raising (write error, connection
closed) for connection `c`; the loop has no try/except, so the exception
aborts the remaining sends.  Returns the sends that happened, in order,
and the exception if one was raised. -/
def sendLoop (payload : String) (sendOk : Conn → Bool) :
    List Conn → List (Conn × String) × Option PyExc
  | [] => ([], none)
  | c :: rest =>
      if sendOk c then
        ((c, payload) :: (sendLoop payload sendOk rest).1, (sendLoop payload sendOk rest).2)
      else ([], some (.sendError "failed to deliver to listener"))

/-- Embedding of `send_data_to_subscribers` (lines 101-104): if `user_id`
is a key of the registry, iterate over its connection set and send to
each.  On the literal set-typed global the membership test compares an
int against `WebSocket` objects and is always false. -/
def send_data_to_subscribers (user_id : Int) (data : Json) (reg : Registry)
    (sendOk : Conn → Bool) : List (Conn × String) × Option PyExc :=
  match reg with
  | .pyset _ => ([], none)
  | .pydict d =>
      match dictLookup d user_id with
      | none => ([], none)
      | some conns => sendLoop (wirePayload data) sendOk conns

/-! ## CRUD endpoints (lines 121-259) -/

/-- Embedding of `read_processed_agent_data` (lines 132-143).  The 404
`HTTPException` is raised inside the `try` block and caught by the
`except Exception` clause, which re-raises it as a 500. -/
def read_processed_agent_data (i : Int) (db : List ProcessedAgentDataInDB) :
    Response ProcessedAgentDataInDB :=
  runGuarded (match selectById db i with
    | none => .error (.httpException 404 "Data not found")
    | some r => .ok r)

/-- Embedding of `update_processed_agent_data` (lines 193-236), returning
the response and the table afterwards.  The body is validated by FastAPI
before the handler runs, so it arrives as a `ProcessedAgentData`.  As in
`read`, a missing id becomes a 500 via the catch-all. -/
def update_processed_agent_data (i : Int) (data : ProcessedAgentData)
    (db : List ProcessedAgentDataInDB) :
    Response ProcessedAgentDataInDB × List ProcessedAgentDataInDB :=
  match selectById db i with
  | none => (.error 500 (pyStr (.httpException 404 "Data not found")), db)
  | some _ =>
      (.success (rowFromSubmission i data),
        db.map (fun r => if r.id == i then rowFromSubmission i data else r))

/-- Embedding of `delete_processed_agent_data` (lines 241-259): fetch the
row, delete where the id matches, return the fetched row.  A missing id
becomes a 500 via the catch-all. -/
def delete_processed_agent_data (i : Int) (db : List ProcessedAgentDataInDB) :
    Response ProcessedAgentDataInDB × List ProcessedAgentDataInDB :=
  match selectById db i with
  | none => (.error 500 (pyStr (.httpException 404 "Data not found")), db)
  | some r => (.success r, db.filter (fun row => row.id != i))

/-! ## Ingest endpoint (lines 149-188) -/

/-- The dict built at lines 169-184 (`data_to_send`). -/
def data_to_send (data : ProcessedAgentData) : Json :=
  .obj [("road_state", .str data.road_state),
        ("agent_data", .obj
          [("user_id", .int data.agent_data.user_id),
           ("accelerometer", .obj
             [("x", .float data.agent_data.accelerometer.x),
              ("y", .float data.agent_data.accelerometer.y),
              ("z", .float data.agent_data.accelerometer.z)]),
           ("gps", .obj
             [("latitude", .float data.agent_data.gps.latitude),
              ("longitude", .float data.agent_data.gps.longitude)]),
           ("timestamp", .str data.agent_data.timestamp.isoformat)])]

/-- The pipeline steps an ingest request goes through. -/
inductive Step where
  | validated
  | persisted
  | publishAttempted
  | acknowledged
deriving DecidableEq, Repr

/-- Everything observable about one ingest request: the response, the
table afterwards, the frames delivered to listeners, the registry
afterwards, and which pipeline steps were reached in order. -/
structure IngestResult where
  resp : Response String
  db : List ProcessedAgentDataInDB
  deliveries : List (Conn × String)
  reg : Registry
  trace : List Step

/-- Embedding of the ingest path of `create_processed_agent_data` (lines
149-188).  FastAPI/pydantic reject an invalid body with a 422 before the
handler runs; `storageOk = false` models `db.execute`/`db.commit`
raising, which the catch-all turns into a 500 with nothing committed; a
send exception after the commit also becomes a 500, with the row already
stored.  The handler never mutates the registry. -/
def create_processed_agent_data (body : RawSubmission)
    (db : List ProcessedAgentDataInDB) (reg : Registry)
    (sendOk : Conn → Bool) (storageOk : Bool) : IngestResult :=
  match validateSubmission body with
  | .error e =>
      { resp := .error 422 e.msg, db := db, deliveries := [], reg := reg, trace := [] }
  | .ok data =>
      if storageOk then
        let db2 := db ++ [rowFromSubmission (nextId db) data]
        let sent := send_data_to_subscribers data.agent_data.user_id (data_to_send data) reg sendOk
        match sent.2 with
        | some e =>
            { resp := .error 500 (pyStr e), db := db2, deliveries := sent.1, reg := reg,
              trace := [.validated, .persisted, .publishAttempted] }
        | none =>
            { resp := .success "Data inserted successfully", db := db2,
              deliveries := sent.1, reg := reg,
              trace := [.validated, .persisted, .publishAttempted, .acknowledged] }
      else
        { resp := .error 500 "storage failure", db := db, deliveries := [], reg := reg,
          trace := [.validated] }

/-- Registry states actually reachable from the module-level initial
state through the websocket connect and disconnect paths. -/
inductive ReachableReg : Registry → Prop where
  | init : ReachableReg subscriptions
  | sub (uid : Int) (c : Conn) (r : Registry) :
      ReachableReg r → ReachableReg (websocket_subscribe uid c r).1
  | unsub (uid : Int) (c : Conn) (r : Registry) :
      ReachableReg r → ReachableReg (websocket_unsubscribe uid c r).1

/-! ## Concrete values used in witnesses and evaluations -/

/-- The timestamp of the scenario in the testable-properties section. -/
def scenarioTimestamp : Datetime := ⟨2024, 1, 1, 0, 0, 0, 0, none⟩

/-- The scenario ingest body: road_state pothole, user 7, accelerometer
(1, 2, 3), gps (50.1, 30.2), timestamp 2024-01-01T00:00:00. -/
def scenarioRaw : RawSubmission :=
  ⟨"pothole", 7, 1, 2, 3, (501 : ℚ)/10, (302 : ℚ)/10, .str "2024-01-01T00:00:00"⟩

/-- The scenario body after validation. -/
def scenarioData : ProcessedAgentData :=
  ⟨"pothole", ⟨7, ⟨1, 2, 3⟩, ⟨(501 : ℚ)/10, (302 : ℚ)/10⟩, scenarioTimestamp⟩⟩

/-- A stored row with id 1. -/
def row1 : ProcessedAgentDataInDB :=
  ⟨1, "pothole", 7, 1, 2, 3, (501 : ℚ)/10, (302 : ℚ)/10, scenarioTimestamp⟩

/-- A submission whose timestamp string is not ISO-8601 and not numeric. -/
def rawBananas : RawSubmission := ⟨"bumpy", 3, 0, 0, 0, 0, 0, .str "banana"⟩

/-- A submission whose timestamp string is the non-ISO numeric `2`. -/
def raw2 : RawSubmission := ⟨"bumpy", 3, 0, 0, 0, 0, 0, .str "2"⟩

/-- The datetime the lax coercion produces from the epoch string `2`. -/
def epochTwo : Datetime := ⟨1970, 1, 1, 0, 0, 2, 0, some 0⟩

/-- A submission whose timestamp is the reduced-precision ISO-8601 string
`2024-01-01T00` (hour only). -/
def rawHourOnly : RawSubmission := ⟨"smooth", 4, 0, 0, 0, 0, 0, .str "2024-01-01T00"⟩

/-! ## Helper lemmas -/

/-- When every send succeeds, the delivery loop sends the payload to each
connection in order and raises nothing. -/
theorem sendLoop_all_ok (payload : String) (sendOk : Conn → Bool)
    (conns : List Conn) (h : ∀ c ∈ conns, sendOk c = true) :
    sendLoop payload sendOk conns = (conns.map (fun c => (c, payload)), none) := by
  induction conns with
  | nil => rfl
  | cons c rest ih =>
      have hc : sendOk c = true := h c (List.mem_cons_self c rest)
      have hrest : ∀ x ∈ rest, sendOk x = true :=
        fun x hx => h x (List.mem_cons_of_mem c hx)
      simp [sendLoop, hc, ih hrest]

/-- Counting deliveries addressed to a given connection. -/
theorem filter_fst_map_pair (L : Conn) (payload : String) (conns : List Conn) :
    ((conns.map (fun c => (c, payload))).filter (fun p => p.1 == L)).length
      = conns.count L := by
  induction conns with
  | nil => rfl
  | cons c rest ih =>
      by_cases hc : c = L
      · subst hc
        simp [List.count_cons, ih]
      · simp [List.count_cons, hc, ih, Ne.symm hc]

/-! ## Claim theorems -/

/-- C10: the module-level subscription registry is initialised as a set,
yet subscribe performs dict-style item assignment on it; from the initial
state every subscribe attempt raises `TypeError` before the connection is
added and leaves the registry unchanged, every state reachable through
the connect/disconnect paths is still the initial empty set, and fan-out
on any reachable state finds zero listeners and delivers nothing. -/
theorem registry_set_subscribe_type_error :
    (∀ uid c, websocket_subscribe uid c subscriptions
        = (subscriptions, some (PyExc.typeError "set object does not support item assignment")))
    ∧ (∀ r, ReachableReg r → r = subscriptions)
    ∧ (∀ r, ReachableReg r → ∀ uid data sendOk,
        send_data_to_subscribers uid data r sendOk = ([], none)) := by
  have hreach : ∀ r, ReachableReg r → r = subscriptions := by
    intro r h
    induction h with
    | init => rfl
    | sub uid c r _ ih => rw [ih]; rfl
    | unsub uid c r _ ih => rw [ih]; rfl
  refine ⟨fun uid c => rfl, hreach, ?_⟩
  intro r h uid data sendOk
  rw [hreach r h]
  rfl

/-- Witness for C10 at concrete inputs: the first subscribe attempt for
user 7 fails with `TypeError`, and fan-out on the initial state delivers
nothing. -/
theorem registry_set_subscribe_type_error_witness :
    websocket_subscribe 7 0 subscriptions
        = (subscriptions, some (PyExc.typeError "set object does not support item assignment"))
      ∧ send_data_to_subscribers 7 (Json.str "x") subscriptions (fun _ => true) = ([], none) :=
  ⟨registry_set_subscribe_type_error.1 7 0,
    registry_set_subscribe_type_error.2.2 subscriptions ReachableReg.init 7
      (Json.str "x") (fun _ => true)⟩

/-- C4 (claim refuted at the code): unsubscribing a connection that is
not registered is not a no-op: on a dict-shaped registry it raises
`KeyError` (from `set.remove`, or from indexing a missing key), and on
the literal set-typed global any unsubscribe raises `TypeError`; only the
present-connection case removes the connection without an error. -/
theorem unsubscribe_absent_raises :
    websocket_unsubscribe 7 0 (.pydict [(7, [])])
        = (.pydict [(7, [])], some (PyExc.keyError "connection not in set"))
    ∧ websocket_unsubscribe 3 0 (.pydict [(7, [0])])
        = (.pydict [(7, [0])], some (PyExc.keyError "user_id missing from subscriptions"))
    ∧ websocket_unsubscribe 7 0 subscriptions
        = (subscriptions, some (PyExc.typeError "set object is not subscriptable"))
    ∧ websocket_unsubscribe 7 0 (.pydict [(7, [0, 1])]) = (.pydict [(7, [1])], none) :=
  ⟨rfl, rfl, rfl, rfl⟩

/-- C2 (claim refuted at the code): with the table holding only id 1,
the get, update and delete operations addressed to the nonexistent id 2
each answer with a server-side 500 – the `HTTPException(404)` raised
inside the `try` block is caught by `except Exception` and re-raised as a
500 – never with a 404, while the table is indeed left unchanged. -/
theorem missing_id_responses_are_500 :
    read_processed_agent_data 2 [row1] = .error 500 "404: Data not found"
    ∧ (update_processed_agent_data 2 scenarioData [row1]).1
        = .error 500 "404: Data not found"
    ∧ (update_processed_agent_data 2 scenarioData [row1]).2 = [row1]
    ∧ (delete_processed_agent_data 2 [row1]).1 = .error 500 "404: Data not found"
    ∧ (delete_processed_agent_data 2 [row1]).2 = [row1]
    ∧ ∀ m, read_processed_agent_data 2 [row1] ≠ Response.error 404 m := by
  refine ⟨rfl, rfl, rfl, rfl, rfl, ?_⟩
  intro m hm
  rw [show read_processed_agent_data 2 [row1]
        = Response.error 500 "404: Data not found" from rfl] at hm
  injection hm with h1 _
  exact absurd h1 (by decide)

/-- C3 (claim refuted at the code): the frame delivered to a subscribed
listener is `json.dumps` applied to the string `json.dumps(record)` –
`send_json(json.dumps(data))` re-serializes the already serialized
string – and differs from the JSON serialization of the record object
itself. -/
theorem ws_message_is_double_encoded :
    (send_data_to_subscribers 7 (data_to_send scenarioData)
        (.pydict [(7, [0])]) (fun _ => true)).1
      = [(0, dumps (Json.str (dumps (data_to_send scenarioData))))]
    ∧ dumps (Json.str (dumps (data_to_send scenarioData)))
        ≠ dumps (data_to_send scenarioData) := by
  exact ⟨rfl, by decide⟩

/-- C1 (claim refuted at the code): with two listeners registered for
user 7 and the send to the first one raising, the uncaught exception
aborts the loop (the second listener receives nothing), propagates into
the ingest handler and is returned to the caller as a 500, and the failed
listener is never unsubscribed (the ingest path never mutates the
registry).  With both sends succeeding the same ingest delivers to both
and succeeds, so the failure of the first send is what changed the
outcome. -/
theorem create_delivery_failure_500 :
    (create_processed_agent_data scenarioRaw [] (.pydict [(7, [0, 1])])
        (fun c => c != 0) true).resp = .error 500 "failed to deliver to listener"
    ∧ (create_processed_agent_data scenarioRaw [] (.pydict [(7, [0, 1])])
        (fun c => c != 0) true).deliveries = []
    ∧ (create_processed_agent_data scenarioRaw [] (.pydict [(7, [0, 1])])
        (fun c => c != 0) true).reg = .pydict [(7, [0, 1])]
    ∧ (create_processed_agent_data scenarioRaw [] (.pydict [(7, [0, 1])])
        (fun _ => true) true).resp = .success "Data inserted successfully"
    ∧ (create_processed_agent_data scenarioRaw [] (.pydict [(7, [0, 1])])
        (fun _ => true) true).deliveries
        = [(0, wirePayload (data_to_send scenarioData)),
           (1, wirePayload (data_to_send scenarioData))] := by
  exact ⟨rfl, rfl, rfl, rfl, rfl⟩

/-- C5: every ingest runs validate, then persist, then publish, in that
order: a validation error is answered with a client-side 422 before
anything is stored or delivered; a reached publish step implies the
persist step succeeded and the row is already committed; a reached
persist step implies validation succeeded; and the trace of reached steps
is always an in-order prefix of the full pipeline, so no step is
skipped. -/
theorem ingest_step_order (body : RawSubmission)
    (db : List ProcessedAgentDataInDB) (reg : Registry)
    (sendOk : Conn → Bool) (storageOk : Bool) :
    ((∃ e, validateSubmission body = .error e) →
        (∃ m, (create_processed_agent_data body db reg sendOk storageOk).resp
            = .error 422 m)
        ∧ (create_processed_agent_data body db reg sendOk storageOk).db = db
        ∧ (create_processed_agent_data body db reg sendOk storageOk).deliveries = []
        ∧ (create_processed_agent_data body db reg sendOk storageOk).trace = [])
    ∧ (Step.publishAttempted ∈ (create_processed_agent_data body db reg sendOk storageOk).trace →
        Step.persisted ∈ (create_processed_agent_data body db reg sendOk storageOk).trace
        ∧ storageOk = true
        ∧ ∃ data, validateSubmission body = .ok data
            ∧ (create_processed_agent_data body db reg sendOk storageOk).db
              = db ++ [rowFromSubmission (nextId db) data])
    ∧ (Step.persisted ∈ (create_processed_agent_data body db reg sendOk storageOk).trace →
        Step.validated ∈ (create_processed_agent_data body db reg sendOk storageOk).trace)
    ∧ ((create_processed_agent_data body db reg sendOk storageOk).trace = []
        ∨ (create_processed_agent_data body db reg sendOk storageOk).trace = [.validated]
        ∨ (create_processed_agent_data body db reg sendOk storageOk).trace
            = [.validated, .persisted, .publishAttempted]
        ∨ (create_processed_agent_data body db reg sendOk storageOk).trace
            = [.validated, .persisted, .publishAttempted, .acknowledged]) := by
  rcases hv : validateSubmission body with e | data
  · refine ⟨fun _ => ?_, ?_, ?_, ?_⟩ <;>
      simp [create_processed_agent_data, hv]
  · cases storageOk with
    | false =>
        refine ⟨?_, ?_, ?_, ?_⟩ <;>
          simp [create_processed_agent_data, hv]
    | true =>
        rcases hs : (send_data_to_subscribers data.agent_data.user_id
            (data_to_send data) reg sendOk).2 with _ | exc
        · refine ⟨?_, ?_, ?_, ?_⟩ <;>
            simp [create_processed_agent_data, hv, hs]
        · refine ⟨fun h => ?_, fun _ => ⟨by simp [create_processed_agent_data, hv, hs], rfl,
              data, rfl, by simp [create_processed_agent_data, hv, hs]⟩, ?_, ?_⟩ <;>
            simp [create_processed_agent_data, hv, hs] at *

/-- Witness for C5: a submission with the non-ISO timestamp string
`banana` is rejected before anything is stored or delivered. -/
theorem ingest_step_order_witness :
    (create_processed_agent_data rawBananas [] subscriptions (fun _ => true) true).db = []
    ∧ (create_processed_agent_data rawBananas [] subscriptions (fun _ => true) true).trace
        = [] := by
  have h := (ingest_step_order rawBananas [] subscriptions (fun _ => true) true).1
    ⟨⟨datetimeParseErrorMsg, .str "banana"⟩, rfl⟩
  exact ⟨h.2.1, h.2.2.2⟩

/-- C6 (claim refuted at the code): the string `2` is not ISO-8601 — the
validator the source intends, `check_timestamp` via `fromisoformat`,
would reject it — yet the validation the program actually runs accepts
it as the Unix epoch 1970-01-01T00:00:02 UTC, because the mis-ordered
decorators at lines 52-53 keep `check_timestamp` from ever being
registered, and the ingest then persists the record. -/
theorem epoch_string_timestamp_accepted :
    fromisoformat "2" = none
    ∧ check_timestamp (.str "2") = .error invalidTimestampMsg
    ∧ validateSubmission raw2 = .ok ⟨"bumpy", ⟨3, ⟨0, 0, 0⟩, ⟨0, 0⟩, epochTwo⟩⟩
    ∧ (create_processed_agent_data raw2 [] subscriptions (fun _ => true) true).resp
        = .success "Data inserted successfully"
    ∧ (create_processed_agent_data raw2 [] subscriptions (fun _ => true) true).db
        = [rowFromSubmission 1 ⟨"bumpy", ⟨3, ⟨0, 0, 0⟩, ⟨0, 0⟩, epochTwo⟩⟩] := by
  exact ⟨rfl, rfl, rfl, rfl, rfl⟩

/-- C7 (claim refuted at the code): `2024-01-01T00` is a valid
reduced-precision ISO-8601 timestamp, accepted by the intended
`check_timestamp`/`fromisoformat` rule, but the validation the program
actually runs — pydantic lax coercion, since `check_timestamp` is never
registered — requires minute precision and rejects the submission with a
422, storing nothing, although every field is present and type-correct.
The full-precision scenario body still validates with every field
preserved, so the divergence is confined to inputs the dead validator
would have admitted. -/
theorem iso_hour_precision_rejected :
    fromisoformat "2024-01-01T00" = some ⟨2024, 1, 1, 0, 0, 0, 0, none⟩
    ∧ check_timestamp (.str "2024-01-01T00") = .ok ⟨2024, 1, 1, 0, 0, 0, 0, none⟩
    ∧ validateSubmission rawHourOnly
        = .error ⟨datetimeParseErrorMsg, .str "2024-01-01T00"⟩
    ∧ (create_processed_agent_data rawHourOnly [] subscriptions (fun _ => true) true).resp
        = .error 422 datetimeParseErrorMsg
    ∧ (create_processed_agent_data rawHourOnly [] subscriptions (fun _ => true) true).db = []
    ∧ validateSubmission scenarioRaw
        = .ok ⟨"pothole", ⟨7, ⟨1, 2, 3⟩, ⟨(501 : ℚ)/10, (302 : ℚ)/10⟩, scenarioTimestamp⟩⟩ := by
  exact ⟨rfl, rfl, rfl, rfl, rfl, rfl⟩

/-- C8: with a listener `L` in the connection set of identifier `U` (a
duplicate-free set, and – per the registry invariant – in no other
identifier's set) and all sends succeeding, publishing a record for `U`
delivers exactly one message to `L`, every delivered frame being the
serialization of the record's fields, while publishing a record for any
`V ≠ U` delivers nothing to `L`. -/
theorem fanout_targets_subscribers (d : List (Int × List Conn)) (U V : Int)
    (L : Conn) (data : Json) (sendOk : Conn → Bool) (conns : List Conn)
    (hall : ∀ c, sendOk c = true)
    (hU : dictLookup d U = some conns) (hL : L ∈ conns) (hnd : conns.Nodup)
    (hV : V ≠ U) (hLV : L ∉ (dictLookup d V).getD []) :
    ((send_data_to_subscribers U data (.pydict d) sendOk).1.filter
        (fun p => p.1 == L)).length = 1
    ∧ (∀ p ∈ (send_data_to_subscribers U data (.pydict d) sendOk).1,
        p.2 = wirePayload data)
    ∧ (send_data_to_subscribers V data (.pydict d) sendOk).1.filter
        (fun p => p.1 == L) = [] := by
  have hsl := sendLoop_all_ok (wirePayload data) sendOk conns (fun c _ => hall c)
  refine ⟨?_, ?_, ?_⟩
  · simp only [send_data_to_subscribers, hU, hsl]
    rw [filter_fst_map_pair]
    exact List.count_eq_one_of_mem hnd hL
  · intro p hp
    simp only [send_data_to_subscribers, hU, hsl] at hp
    rcases List.mem_map.mp hp with ⟨c, _, rfl⟩
    rfl
  · rcases hdv : dictLookup d V with _ | connsV
    · simp [send_data_to_subscribers, hdv]
    · rw [hdv] at hLV
      have hslV := sendLoop_all_ok (wirePayload data) sendOk connsV (fun c _ => hall c)
      simp only [send_data_to_subscribers, hdv, hslV]
      rw [← List.length_eq_zero]
      rw [filter_fst_map_pair]
      exact List.count_eq_zero.mpr (by simpa using hLV)

/-- Witness for C8 at a concrete registry: listener 0 subscribed to 7,
listener 1 subscribed to 9: publishing for 7 reaches 0 exactly once,
publishing for 9 does not reach 0. -/
theorem fanout_targets_subscribers_witness :
    ((send_data_to_subscribers 7 (Json.str "x") (.pydict [(7, [0]), (9, [1])])
        (fun _ => true)).1.filter (fun p => p.1 == 0)).length = 1
    ∧ (send_data_to_subscribers 9 (Json.str "x") (.pydict [(7, [0]), (9, [1])])
        (fun _ => true)).1.filter (fun p => p.1 == 0) = [] := by
  have h := fanout_targets_subscribers [(7, [0]), (9, [1])] 7 9 0 (Json.str "x")
    (fun _ => true) [0] (fun _ => rfl) rfl (by simp) (by simp) (by decide) (by decide)
  exact ⟨h.1, h.2.2⟩

/-- C9: updating an existing id fully replaces every field of that row
with the submitted values – the new table maps exactly the rows with that
id to the submitted row, so there is no partial-field patch – the
response is the updated record carrying the same id, and every row with
a different id is still present unchanged. -/
theorem update_replaces_all_fields (i : Int) (data : ProcessedAgentData)
    (db : List ProcessedAgentDataInDB) (h : (selectById db i).isSome = true) :
    (update_processed_agent_data i data db).1 = .success (rowFromSubmission i data)
    ∧ (update_processed_agent_data i data db).2
        = db.map (fun r => if r.id == i then rowFromSubmission i data else r)
    ∧ ∀ r ∈ db, r.id ≠ i → r ∈ (update_processed_agent_data i data db).2 := by
  rcases Option.isSome_iff_exists.mp h with ⟨r0, hr0⟩
  refine ⟨?_, ?_, ?_⟩
  · simp [update_processed_agent_data, hr0]
  · simp [update_processed_agent_data, hr0]
  · intro r hr hne
    simp only [update_processed_agent_data, hr0]
    refine List.mem_map.mpr ⟨r, hr, ?_⟩
    simp [hne]

/-- Witness for C9: replacing the single row with id 1 by the scenario
submission yields exactly the submitted row under id 1. -/
theorem update_replaces_all_fields_witness :
    (update_processed_agent_data 1 scenarioData [row1]).1
        = .success (rowFromSubmission 1 scenarioData)
    ∧ (update_processed_agent_data 1 scenarioData [row1]).2
        = [rowFromSubmission 1 scenarioData] := by
  have h := update_replaces_all_fields 1 scenarioData [row1] rfl
  exact ⟨h.1, h.2.1.trans rfl⟩

end RoadStore
